import Mathlib

/-!
Verification development for the Cue offline-first task / Google-Calendar
synchronization engine.  The definitions below are a shallow embedding of the
sync subsystem: the calendar adapter (`taskToEvent`, `eventToTask`,
`createEvent`, `updateEvent`, `deleteEvent`, `isPermanentGoogleError`), the
mutation-side enqueue helpers (`syncCreate`, `syncUpdate`, `syncDelete` of
`stores/task-store.ts`), and the push/pull engine (`flushQueue`,
`pullFromCalendar` of the sync hook).

Modelling conventions:
- JavaScript `Date` values are modelled by `DateTime` (local calendar fields)
  and by `Nat` millisecond timestamps where only `getTime()` comparisons occur.
  A single time zone is assumed, so local and serialized calendar fields agree;
  calendar normalization past a day boundary is not modelled because no
  verified property observes it.
- Fallible remote calls are modelled by explicit outcome values
  (`FetchOutcome`, `GcalAdapter`, `StorageOracle`); code that catches its own
  exceptions returns structured results, exactly as the source does.
- JavaScript string truthiness (`""` is falsy) is made explicit via
  `truthyStr` and `orFallback`.
-/

namespace Cue

/-- Task priority, the `"high" | "medium" | "low"` union of `TaskItem`. -/
inductive Priority where
  | high
  | medium
  | low
deriving Repr, DecidableEq

/-- The string stored for a priority (the lowercase union members). -/
def priorityText : Priority → String
  | .high => "high"
  | .medium => "medium"
  | .low => "low"

/-- Local calendar date-time carried by a JavaScript `Date` in a fixed zone. -/
structure DateTime where
  year : Nat
  month : Nat
  day : Nat
  hour : Nat
  minute : Nat
deriving Repr, DecidableEq

/-- Embeds `TaskItem`: a local task.  `updated_at` is optional because the source
reads it with optional chaining (`local.updated_at?.getTime() || 0`).
Timestamps are epoch milliseconds. -/
structure Task where
  id : String
  text : String
  completed : Bool
  date : DateTime
  scheduled_time : Option String
  priority : Option Priority
  description : Option String
  gcalEventId : Option String
  syncedWithGCal : Bool
  created_at : Nat
  updated_at : Option Nat
deriving Repr, DecidableEq

/-- JavaScript truthiness of an optional string: present and non-empty. -/
def truthyStr : Option String → Bool
  | some s => s ≠ ""
  | none => false

/-- JavaScript `a || fallback` on an optional string: the fallback is used when the
value is absent or empty (both falsy in JavaScript). -/
def orFallback (a : Option String) (fallback : String) : String :=
  match a with
  | some s => if s = "" then fallback else s
  | none => fallback

/-- Split a character list around the first occurrence of the (non-empty)
pattern, if any.  All string searching below is built on this structural
function so that every definition evaluates by kernel reduction. -/
def splitAtSub (pat : List Char) : List Char → Option (List Char × List Char)
  | [] => none
  | c :: cs =>
    if List.isPrefixOf pat (c :: cs) then some ([], (c :: cs).drop pat.length)
    else
      match splitAtSub pat cs with
      | some (pre, post) => some (c :: pre, post)
      | none => none

/-- Embeds `String.prototype.split` on a non-empty separator, fuelled by the input
length (each round consumes at least one character). -/
def splitFuel (pat : List Char) : Nat → List Char → List (List Char)
  | _, [] => [[]]
  | 0, cs => [cs]
  | fuel + 1, cs =>
    match splitAtSub pat cs with
    | some (pre, post) => pre :: splitFuel pat fuel post
    | none => [cs]

/-- Embeds `String.prototype.split` with a non-empty string separator. -/
def splitStr (s pat : String) : List String :=
  (splitFuel pat.data s.data.length s.data).map String.mk

/-- Embeds `String.prototype.replace`, which with a string pattern replaces only the
first occurrence. -/
def replaceFirst (s pat repl : String) : String :=
  match splitAtSub pat.data s.data with
  | some (pre, post) => String.mk (pre ++ repl.data ++ post)
  | none => s

/-- Embeds `String.prototype.includes` for a non-empty pattern. -/
def containsSubstr (s pat : String) : Bool :=
  (splitAtSub pat.data s.data).isSome

/-- Embeds `String.prototype.toLowerCase` (ASCII, as used by the markers and the
priority token). -/
def toLowerStr (s : String) : String :=
  String.mk (s.data.map Char.toLower)

/-- Embeds `String.prototype.trim`. -/
def trimStr (s : String) : String :=
  String.mk
    (((s.data.dropWhile Char.isWhitespace).reverse.dropWhile
        Char.isWhitespace).reverse)

/-- Embeds `Number(x)` on the digit strings produced by splitting `"HH:MM"` /
`"YYYY-MM-DD"`; a non-digit yields no value (JavaScript would yield `NaN`,
which no verified property exercises). -/
def parseNatChars (cs : List Char) : Option Nat :=
  cs.foldl
    (fun acc c =>
      match acc with
      | some n => if c.isDigit then some (n * 10 + (c.toNat - 48)) else none
      | none => none)
    (some 0)

/-- Embeds `n.toString().padStart(2, "0")` for the small numbers produced by
`getHours` / `getMinutes` / `getMonth` / `getDate`. -/
def pad2 (n : Nat) : String :=
  if n < 10 then "0" ++ toString n else toString n

/-- Four-digit year as printed inside an ISO date string. -/
def pad4 (n : Nat) : String :=
  if n < 10 then "000" ++ toString n
  else if n < 100 then "00" ++ toString n
  else if n < 1000 then "0" ++ toString n
  else toString n

/-- Embeds `date.toISOString().split("T")[0]` under the fixed-zone convention. -/
def isoDateStr (dt : DateTime) : String :=
  pad4 dt.year ++ "-" ++ pad2 dt.month ++ "-" ++ pad2 dt.day

/-- Parse the `"YYYY-MM-DD"` date of an all-day event
(`new Date(event.start.date + "T00:00:00")`). -/
def parseISODate (s : String) : Option DateTime :=
  match (splitStr s "-").map (fun x => parseNatChars x.data) with
  | [some y, some m, some d] => some ⟨y, m, d, 0, 0⟩
  | _ => none

/-- Embeds `endDateTime.setHours(endDateTime.getHours() + 1)` including the roll
into the next day that JavaScript performs at 23:xx. -/
def addOneHour (dt : DateTime) : DateTime :=
  if dt.hour + 1 < 24 then { dt with hour := dt.hour + 1 }
  else { dt with hour := dt.hour + 1 - 24, day := dt.day + 1 }

/-- Embeds `endDate.setDate(endDate.getDate() + 1)`; normalization past the end of
the month is not modelled (no verified property observes it). -/
def addOneDay (dt : DateTime) : DateTime :=
  { dt with day := dt.day + 1 }

/-- The marker identifying events owned by this system. -/
def CUE_MARKER : String := "[cue]"

/-- The completion marker appended to the description of a completed task. -/
def CUE_DONE_MARKER : String := "[done]"

/-- Embeds `RETRYABLE_STATUS_CODES` of the calendar adapter. -/
def RETRYABLE_STATUS_CODES : List Nat := [408, 425, 429, 500, 502, 503, 504]

/-- Embeds `isPermanentGoogleError`: a message that names an immutable-field
conflict or "not found" forces a permanent classification. -/
def isPermanentGoogleError (message : String) : Bool :=
  let normalized := toLowerStr message
  containsSubstr normalized "event type cannot be changed" ||
  containsSubstr normalized "cannot be changed" ||
  containsSubstr normalized "not found"

/-- Embeds `isRetryableStatusCode`. -/
def isRetryableStatusCode (status : Nat) : Bool :=
  RETRYABLE_STATUS_CODES.contains status

/-- One endpoint of a calendar event: either a timed instant or an all-day
date string, as in the `start` / `end` objects of the event shape. -/
structure GCalEventTime where
  dateTime : Option DateTime
  date : Option String
  timeZone : Option String
deriving Repr, DecidableEq

/-- The event body sent on create/update (`GoogleCalendarEvent`);
`end` is a reserved word in Lean, so the field is named `endTime`. -/
structure GoogleCalendarEvent where
  summary : String
  description : String
  startTime : GCalEventTime
  endTime : GCalEventTime
deriving Repr, DecidableEq

/-- An event as returned by the listing endpoint (`GCalEventResponse`).
`updated` is kept as an epoch-millisecond timestamp (the source holds the
ISO string and compares it through `new Date(x).getTime()`). -/
structure GCalEventResponse where
  id : String
  summary : Option String
  description : Option String
  updated : Option Nat
  status : Option String
  start : Option GCalEventTime
  endTime : Option GCalEventTime
deriving Repr, DecidableEq

/-- The anchored case-insensitive priority token of `eventToTask`:
`/^Priority:\s*(high|medium|low)/i`, with the matched word length. -/
def priorityOfWord (cs : List Char) : Option (Priority × Nat) :=
  if List.isPrefixOf "high".data cs then some (.high, 4)
  else if List.isPrefixOf "medium".data cs then some (.medium, 6)
  else if List.isPrefixOf "low".data cs then some (.low, 3)
  else none

/-- Combined effect of the two anchored regex operations of `eventToTask`:
the match extracts the priority, the replace drops
`^Priority:\s*(high|medium|low)\s*` from the original string and the result
is trimmed.  Case-insensitivity is realized by matching on the lowered
character list while dropping from the original one (lowering preserves
length). -/
def matchPriority (s : String) : Option (Priority × String) :=
  let cs := s.data
  let lower := cs.map Char.toLower
  if List.isPrefixOf "priority:".data lower then
    let rest := lower.drop 9
    let ws1 := (rest.takeWhile Char.isWhitespace).length
    match priorityOfWord (rest.drop ws1) with
    | some (p, wlen) =>
      let afterWord := rest.drop (ws1 + wlen)
      let ws2 := (afterWord.takeWhile Char.isWhitespace).length
      some (p, trimStr (String.mk (cs.drop (9 + ws1 + wlen + ws2))))
    | none => none
  else none

/-- The record produced by `eventToTask`:
`Omit<TaskItem, "id"> & { gcalEventId: string; gcalUpdated: string }`. -/
structure PulledTask where
  text : String
  completed : Bool
  date : DateTime
  scheduled_time : Option String
  priority : Option Priority
  description : Option String
  gcalEventId : String
  syncedWithGCal : Bool
  gcalUpdated : Nat
  created_at : Nat
  updated_at : Nat
deriving Repr, DecidableEq

/-- Embeds `eventToTask` of the calendar adapter.  `nowMs` / `nowDate` stand for the
`new Date()` calls taken when the event lacks an `updated` stamp or a start. -/
def eventToTask (nowMs : Nat) (nowDate : DateTime) (event : GCalEventResponse) :
    PulledTask :=
  let description := orFallback event.description ""
  let isCompleted := containsSubstr description CUE_DONE_MARKER
  let cleanDesc :=
    trimStr (replaceFirst (replaceFirst description CUE_MARKER "") CUE_DONE_MARKER "")
  let pm := matchPriority cleanDesc
  let priority := pm.map (fun x => x.1)
  let taskDescription :=
    match pm with
    | some x => x.2
    | none => cleanDesc
  let dateAndTime : DateTime × Option String :=
    match event.start with
    | some st =>
      match st.dateTime with
      | some dt => (dt, some (pad2 dt.hour ++ ":" ++ pad2 dt.minute))
      | none =>
        match st.date with
        | some ds => ((parseISODate ds).getD ⟨0, 0, 0, 0, 0⟩, none)
        | none => (nowDate, none)
    | none => (nowDate, none)
  { text :=
      match event.summary with
      | some s => if s = "" then "Untitled" else s
      | none => "Untitled",
    completed := isCompleted,
    date := dateAndTime.1,
    scheduled_time := dateAndTime.2,
    priority := priority,
    description := if taskDescription = "" then none else some taskDescription,
    gcalEventId := event.id,
    syncedWithGCal := true,
    gcalUpdated := event.updated.getD nowMs,
    created_at := nowMs,
    updated_at := event.updated.getD nowMs }

/-- Embeds `taskToEvent` of the calendar adapter; `tz` is the resolved local time
zone (`Intl.DateTimeFormat().resolvedOptions().timeZone`). -/
def taskToEvent (tz : String) (task : Task) : GoogleCalendarEvent :=
  let parts :=
    (match task.priority with
      | some p => ["Priority: " ++ priorityText p]
      | none => [])
    ++ (match task.description with
      | some d => if d = "" then [] else [d]
      | none => [])
    ++ (if task.completed then [CUE_DONE_MARKER] else [])
    ++ [CUE_MARKER]
  let description := String.intercalate "\n\n" parts
  if truthyStr task.scheduled_time then
    let st := task.scheduled_time.getD ""
    let nums := (splitStr st ":").map (fun x => (parseNatChars x.data).getD 0)
    let hours := nums.getD 0 0
    let minutes := nums.getD 1 0
    let startDateTime : DateTime := { task.date with hour := hours, minute := minutes }
    let endDateTime := addOneHour startDateTime
    { summary := task.text,
      description := description,
      startTime := ⟨some startDateTime, none, some tz⟩,
      endTime := ⟨some endDateTime, none, some tz⟩ }
  else
    let startDate := task.date
    let endDate := addOneDay task.date
    { summary := task.text,
      description := description,
      startTime := ⟨none, some (isoDateStr startDate), none⟩,
      endTime := ⟨none, some (isoDateStr endDate), none⟩ }

/-- How a stored event comes back through the listing endpoint: the service
echoes the submitted body together with its identifier, modification stamp
and status. -/
def eventAsListed (e : GoogleCalendarEvent) (id : String) (updated : Option Nat)
    (status : Option String) : GCalEventResponse :=
  { id := id,
    summary := some e.summary,
    description := some e.description,
    updated := updated,
    status := status,
    start := some e.startTime,
    endTime := some e.endTime }

/-- The structured result of the adapter operations (`GoogleSyncResult`). -/
structure GoogleSyncResult where
  success : Bool
  retryable : Bool
  eventId : Option String
  message : Option String
deriving Repr, DecidableEq

/-- The observable part of an HTTP response: `ok`, `status`, the error
message found in the JSON body (`error.error?.message`, absent when the
body is missing or unparsable) and, for create, the identifier returned
on success (`result.id`). -/
structure HttpResponse where
  ok : Bool
  status : Nat
  errorMessage : Option String
  newId : Option String
deriving Repr, DecidableEq

/-- Outcome of one `fetch` to the calendar service: a response, or a
network-level exception carrying the thrown `Error`'s message (absent when
the thrown value is not an `Error`, in which case `getErrorMessage`
substitutes its fallback). -/
inductive FetchOutcome where
  | response (r : HttpResponse)
  | thrown (msg : Option String)
deriving Repr, DecidableEq

/-- Embeds `createEvent` of the calendar adapter (result shape only; the request
body built by `taskToEvent` does not influence the returned
classification). -/
def createEvent (isSignedIn connected : Bool) (token : Option String)
    (outcome : FetchOutcome) (task : Task) : GoogleSyncResult :=
  if !(isSignedIn && connected) then
    ⟨false, false, none, some "Google account not connected"⟩
  else if !(truthyStr token) then
    ⟨false, false, none, some "Failed to get Google Calendar token"⟩
  else
    match outcome with
    | .response r =>
      if r.ok then ⟨true, false, r.newId, none⟩
      else
        let message := orFallback r.errorMessage "Failed to create event"
        ⟨false, isRetryableStatusCode r.status && !(isPermanentGoogleError message),
          none, some message⟩
    | .thrown m => ⟨false, true, none, some (m.getD "Unknown error")⟩

/-- Embeds `updateEvent` of the calendar adapter. -/
def updateEvent (isSignedIn connected : Bool) (eventId : String)
    (token : Option String) (outcome : FetchOutcome) (task : Task) :
    GoogleSyncResult :=
  if !(isSignedIn && connected) || eventId = "" then
    ⟨false, false, none, some "Google account not connected"⟩
  else if !(truthyStr token) then
    ⟨false, false, none, some "Failed to get Google Calendar token"⟩
  else
    match outcome with
    | .response r =>
      if r.ok then ⟨true, false, none, none⟩
      else
        let message := orFallback r.errorMessage "Failed to update event"
        ⟨false, isRetryableStatusCode r.status && !(isPermanentGoogleError message),
          none, some message⟩
    | .thrown m => ⟨false, true, none, some (m.getD "Unknown error")⟩

/-- Embeds `deleteEvent` of the calendar adapter; a response with status 404 or 410
skips the error branch and reaches the same `success` return as an `ok`
response. -/
def deleteEvent (isSignedIn connected : Bool) (eventId : String)
    (token : Option String) (outcome : FetchOutcome) : GoogleSyncResult :=
  if !(isSignedIn && connected) || eventId = "" then
    ⟨false, false, none, some "Google account not connected"⟩
  else if !(truthyStr token) then
    ⟨false, false, none, some "Failed to get Google Calendar token"⟩
  else
    match outcome with
    | .response r =>
      if r.ok = false ∧ r.status ≠ 404 ∧ r.status ≠ 410 then
        let message := orFallback r.errorMessage "Failed to delete event"
        ⟨false, isRetryableStatusCode r.status && !(isPermanentGoogleError message),
          none, some message⟩
      else ⟨true, false, none, none⟩
    | .thrown m => ⟨false, true, none, some (m.getD "Unknown error")⟩

/-- Operation kind of a queue item. -/
inductive SyncOp where
  | create
  | update
  | del
deriving Repr, DecidableEq

/-- A durable sync-queue record. `retryCount` and `lastError` are optional
because enqueue writes neither (`item.retryCount ?? 0`). -/
structure SyncQueueItem where
  id : String
  operation : SyncOp
  taskId : String
  taskData : Option Task
  gcalEventId : Option String
  timestamp : Nat
  retryCount : Option Nat
  lastError : Option String
deriving Repr, DecidableEq

/-- Modelled from the spec: `addOrReplaceSyncQueueItem` of
`hooks/use-indexed-db` is not under `src/`.  Per §4.2 it "inserts a new
item, or replaces the existing item for the same task identifier
(last-intent-wins)". -/
def addOrReplaceSyncQueueItem (q : List SyncQueueItem) (item : SyncQueueItem) :
    List SyncQueueItem :=
  if q.any (fun i => i.taskId == item.taskId) then
    q.map (fun i => if i.taskId == item.taskId then item else i)
  else q ++ [item]

/-- Modelled from the spec: `removeSyncQueueItem` of `hooks/use-indexed-db`
is not under `src/`.  Per §4.2 it is `remove(id)`. -/
def removeSyncQueueItem (q : List SyncQueueItem) (id : String) :
    List SyncQueueItem :=
  q.filter (fun i => i.id != id)

/-- Modelled from the spec: `updateSyncQueueItem` of `hooks/use-indexed-db`
is not under `src/`.  Per §4.2 it is `update(id, partialFields)`, used by the
flush to bump `retryCount`, `lastError` and `timestamp`. -/
def updateSyncQueueItem (q : List SyncQueueItem) (id : String)
    (retryCount : Nat) (lastError : Option String) (timestamp : Nat) :
    List SyncQueueItem :=
  q.map (fun i =>
    if i.id == id then
      { i with retryCount := some retryCount, lastError := lastError,
               timestamp := timestamp }
    else i)

/-- Embeds `canGoogleSync` of `stores/task-store.ts` and the `canSync` guard of the
sync hook: authenticated session, verified linked Google account, and sync
enabled in settings. -/
def canSync (isSignedIn hasGoogleConnected syncWithGoogleCalendar : Bool) : Bool :=
  isSignedIn && hasGoogleConnected && syncWithGoogleCalendar

/-- Embeds `syncCreate` of `stores/task-store.ts`.  `remoteResult` is what the
direct `createEvent` attempt returns when the client is online; `newItemId`
and `now` stand for `generateId()` and `Date.now()` at the enqueue site. -/
def syncCreate (task : Task) (canGoogleSync online : Bool)
    (remoteResult : GoogleSyncResult) (newItemId : String) (now : Nat)
    (q : List SyncQueueItem) : List SyncQueueItem × Task :=
  if !canGoogleSync then (q, task)
  else if online && remoteResult.success && truthyStr remoteResult.eventId then
    (q, { task with gcalEventId := remoteResult.eventId, syncedWithGCal := true })
  else if online && !remoteResult.retryable then (q, task)
  else
    (addOrReplaceSyncQueueItem q
      ⟨newItemId, .create, task.id, some task, none, now, none, none⟩, task)

/-- Embeds `syncUpdate` of `stores/task-store.ts`. -/
def syncUpdate (task : Task) (canGoogleSync online : Bool)
    (remoteResult : GoogleSyncResult) (newItemId : String) (now : Nat)
    (q : List SyncQueueItem) : List SyncQueueItem × Bool :=
  if !(truthyStr task.gcalEventId) || !canGoogleSync then (q, false)
  else if online && remoteResult.success then (q, true)
  else if online && !remoteResult.retryable then (q, false)
  else
    (addOrReplaceSyncQueueItem q
      ⟨newItemId, .update, task.id, some task, task.gcalEventId, now, none, none⟩,
     true)

/-- Embeds `syncDelete` of `stores/task-store.ts`: a falsy `gcalEventId` returns
`false` before anything is enqueued. -/
def syncDelete (gcalEventId : Option String) (taskId : String)
    (canGoogleSync online : Bool) (remoteResult : GoogleSyncResult)
    (newItemId : String) (now : Nat) (q : List SyncQueueItem) :
    List SyncQueueItem × Bool :=
  if !(truthyStr gcalEventId) || !canGoogleSync then (q, false)
  else if online && remoteResult.success then (q, true)
  else if online && !remoteResult.retryable then (q, false)
  else
    (addOrReplaceSyncQueueItem q
      ⟨newItemId, .del, taskId, none, gcalEventId, now, none, none⟩, true)

/-- Embeds `MAX_SYNC_RETRIES` of the sync hook. -/
def MAX_SYNC_RETRIES : Nat := 3

/-- The calendar adapter as seen by `flushQueue`: each silent call returns a
structured result and never throws (the adapter catches internally). -/
structure GcalAdapter where
  createEvent : Task → GoogleSyncResult
  updateEvent : Task → String → GoogleSyncResult
  deleteEvent : String → GoogleSyncResult

/-- A remote operation actually issued during a flush. -/
inductive RemoteCall where
  | create (task : Task)
  | update (task : Task) (eventId : String)
  | del (eventId : String)
deriving Repr, DecidableEq

/-- Failure injection for the durable-storage suspension points of
`flushQueue`: whether reading the queue throws, whether the per-item
remove/update operations throw (those are swallowed by the per-item
`catch`), and whether the awaited final pending-count refresh throws. -/
structure StorageOracle where
  readError : Option String
  removeOk : String → Bool
  updateOk : String → Bool
  refreshError : Option String

/-- The oracle under which every storage operation succeeds. -/
def allOk : StorageOracle :=
  ⟨none, fun _ => true, fun _ => true, none⟩

/-- Accumulator of the flush loop: the durable queue, the working copy of
the task list, the three counters and the remote calls issued so far. -/
structure FlushLoopState where
  queue : List SyncQueueItem
  updatedTasks : List Task
  processed : Nat
  retrying : Nat
  dropped : Nat
  calls : List RemoteCall
deriving DecidableEq

/-- The vacuous-success result used when an item needs no remote call
(`{ success: true, retryable: false, message: "" }`). -/
def vacuousSuccess : GoogleSyncResult :=
  ⟨true, false, none, some ""⟩

/-- Embeds `updatedTasks[idx] = { ...updatedTasks[idx], gcalEventId, syncedWithGCal:
true }` after `findIndex` on the task identifier (first match only). -/
def assignEventId : List Task → String → String → List Task
  | [], _, _ => []
  | t :: ts, taskId, eid =>
    if t.id == taskId then
      { t with gcalEventId := some eid, syncedWithGCal := true } :: ts
    else t :: assignEventId ts taskId eid

/-- The `switch (item.operation)` of the flush loop: the adapter result, the
new working task list and the remote calls issued for one item. -/
def itemAttempt (gcal : GcalAdapter) (tasks : List Task) (item : SyncQueueItem) :
    GoogleSyncResult × List Task × List RemoteCall :=
  match item.operation with
  | .create =>
    match item.taskData with
    | none => (vacuousSuccess, tasks, [])
    | some td =>
      let r := gcal.createEvent td
      let tasks' :=
        if r.success && truthyStr r.eventId then
          assignEventId tasks item.taskId (r.eventId.getD "")
        else tasks
      (r, tasks', [RemoteCall.create td])
  | .update =>
    match item.taskData with
    | none => (vacuousSuccess, tasks, [])
    | some td =>
      if truthyStr item.gcalEventId then
        let eid := item.gcalEventId.getD ""
        (gcal.updateEvent td eid, tasks, [RemoteCall.update td eid])
      else (vacuousSuccess, tasks, [])
  | .del =>
    if truthyStr item.gcalEventId then
      let eid := item.gcalEventId.getD ""
      (gcal.deleteEvent eid, tasks, [RemoteCall.del eid])
    else (vacuousSuccess, tasks, [])

/-- One iteration of the flush loop, including the surrounding per-item
`try/catch`: a throwing storage operation leaves the item and the counters
untouched and moves on to the next item. -/
def runItem (gcal : GcalAdapter) (oracle : StorageOracle) (now : Nat)
    (ls : FlushLoopState) (item : SyncQueueItem) : FlushLoopState :=
  let a := itemAttempt gcal ls.updatedTasks item
  let result := a.1
  let ls1 := { ls with updatedTasks := a.2.1, calls := ls.calls ++ a.2.2 }
  if result.success then
    if oracle.removeOk item.id then
      { ls1 with queue := removeSyncQueueItem ls1.queue item.id,
                 processed := ls1.processed + 1 }
    else ls1
  else
    let nextRetryCount := item.retryCount.getD 0 + 1
    if result.retryable = false ∨ MAX_SYNC_RETRIES ≤ nextRetryCount then
      if oracle.removeOk item.id then
        { ls1 with queue := removeSyncQueueItem ls1.queue item.id,
                   dropped := ls1.dropped + 1 }
      else ls1
    else
      if oracle.updateOk item.id then
        { ls1 with queue := updateSyncQueueItem ls1.queue item.id nextRetryCount
                              result.message now,
                   retrying := ls1.retrying + 1 }
      else ls1

/-- The mutable state `flushQueue` touches: the in-progress flag, the
durable queue and the task store. -/
structure SyncState where
  isFlushing : Bool
  queue : List SyncQueueItem
  tasks : List Task
deriving DecidableEq

/-- The `{ processed, retrying, dropped }` summary. -/
structure FlushCounts where
  processed : Nat
  retrying : Nat
  dropped : Nat
deriving Repr, DecidableEq

/-- Whether the flush returned its summary or terminated by an uncaught
exception (thrown again after the `finally` ran). -/
inductive FlushOutcome where
  | ok (counts : FlushCounts)
  | error (msg : String)
deriving Repr, DecidableEq

/-- Embeds `flushQueue` of the sync hook: gate on the in-progress flag and on
`canSync`, snapshot the queue, process every item, apply the accumulated
task mutations as one batch when anything was processed, refresh the
pending count, and clear the flag in a `finally` on every exit path.
Returns the new state, the outcome and the remote calls issued. -/
def flushQueue (gcal : GcalAdapter) (oracle : StorageOracle) (canSyncNow : Bool)
    (now : Nat) (st : SyncState) : SyncState × FlushOutcome × List RemoteCall :=
  if st.isFlushing || !canSyncNow then
    (st, .ok ⟨0, 0, 0⟩, [])
  else
    match oracle.readError with
    | some e => ({ st with isFlushing := false }, .error e, [])
    | none =>
      if st.queue.isEmpty then
        ({ st with isFlushing := false }, .ok ⟨0, 0, 0⟩, [])
      else
        let ls := st.queue.foldl (runItem gcal oracle now)
          ⟨st.queue, st.tasks, 0, 0, 0, []⟩
        let tasks' := if 0 < ls.processed then ls.updatedTasks else st.tasks
        let st' : SyncState := ⟨false, ls.queue, tasks'⟩
        match oracle.refreshError with
        | some e => (st', .error e, ls.calls)
        | none => (st', .ok ⟨ls.processed, ls.retrying, ls.dropped⟩, ls.calls)

/-- Modelled from the spec: `serializeTask` of `lib/utils/task` is not under
`src/`.  The spec lists it only among "shared serialization/mapping
helpers" (§2) applied to a task record before it is stored, so it is
modelled as the identity normalization. -/
def serializeTask (t : Task) : Task := t

/-- The last-writer-wins overwrite of `pullFromCalendar`: spread the local
task and take `text`, `completed`, `date`, `scheduled_time`, `priority`,
`description` and `updated_at` from the remote version. -/
def mergeRemoteIntoTask (localTask : Task) (remote : PulledTask) : Task :=
  serializeTask
    { localTask with
      text := remote.text,
      completed := remote.completed,
      date := remote.date,
      scheduled_time := remote.scheduled_time,
      priority := remote.priority,
      description := remote.description,
      updated_at := some remote.gcalUpdated }

/-- The new local task `pullFromCalendar` builds for an unmatched remote
event. -/
def newTaskFromRemote (freshId : String) (remote : PulledTask) : Task :=
  serializeTask
    { id := freshId,
      text := remote.text,
      completed := remote.completed,
      date := remote.date,
      scheduled_time := remote.scheduled_time,
      priority := remote.priority,
      description := remote.description,
      gcalEventId := some remote.gcalEventId,
      syncedWithGCal := true,
      created_at := remote.created_at,
      updated_at := some remote.updated_at }

/-- Replace the first element satisfying `p` by its image under `f`
(`findIndex` followed by an indexed store). -/
def updateFirstMatch (p : Task → Bool) (f : Task → Task) : List Task → List Task
  | [] => []
  | t :: ts => if p t then f t :: ts else t :: updateFirstMatch p f ts

/-- Whether a local task matches a fetched remote event
(`t.gcalEventId === remote.gcalEventId`; an absent local identifier never
equals a string). -/
def matchesRemote (remote : PulledTask) (t : Task) : Bool :=
  t.gcalEventId == some remote.gcalEventId

/-- The body of the pull loop for one fetched remote event: last-writer-wins
merge into the first matching local task, or append a brand-new task.  The
flag reports whether `changeCount` was incremented. -/
def applyRemote (tasks : List Task) (remote : PulledTask) (freshId : String) :
    List Task × Bool :=
  match tasks.find? (matchesRemote remote) with
  | some localTask =>
    if localTask.updated_at.getD 0 < remote.gcalUpdated then
      (updateFirstMatch (matchesRemote remote)
        (fun l => mergeRemoteIntoTask l remote) tasks, true)
    else (tasks, false)
  | none => (tasks ++ [newTaskFromRemote freshId remote], true)

/-- The pull loop over all fetched events, threading the fresh-identifier
supply and the change counter. -/
def pullGo (freshIds : Nat → String) :
    List PulledTask → List Task → Nat → Nat → List Task × Nat
  | [], tasks, _, changeCount => (tasks, changeCount)
  | remote :: rest, tasks, k, changeCount =>
    let r := applyRemote tasks remote (freshIds k)
    pullGo freshIds rest r.1 (k + 1) (changeCount + if r.2 then 1 else 0)

/-- Embeds `pullFromCalendar` of the sync hook: gate on `canSync`, fetch (given
here as `remoteEvents`, already filtered and mapped by `fetchEvents`),
reconcile each event, and apply the batch only when something changed.
Returns the resulting task list and the change count. -/
def pullFromCalendar (canSyncNow : Bool) (freshIds : Nat → String)
    (remoteEvents : List PulledTask) (tasks : List Task) : List Task × Nat :=
  if !canSyncNow then (tasks, 0)
  else if remoteEvents.isEmpty then (tasks, 0)
  else
    let r := pullGo freshIds remoteEvents tasks 0 0
    (if 0 < r.2 then r.1 else tasks, r.2)

/-! Concrete fixtures used by the witnesses and the scenario theorems. -/

/-- A task with high priority, description "buy milk", not completed, and a
14:30 time of day. -/
def rtTask : Task :=
  ⟨"t1", "Buy milk", false, ⟨2025, 1, 15, 0, 0⟩, some "14:30", some .high,
   some "buy milk", none, false, 0, some 0⟩

/-- The same task once linked to remote event "evt1" and last modified at
500. -/
def localLinked : Task :=
  { rtTask with gcalEventId := some "evt1", updated_at := some 500 }

/-- A fetched remote version of event "evt1", last modified at 900. -/
def remoteNewer : PulledTask :=
  ⟨"new text", true, ⟨2025, 1, 16, 0, 0⟩, none, some .low, some "d", "evt1",
   true, 900, 10, 900⟩

/-- A task created while offline: no remote linkage yet. -/
def offlineTask : Task :=
  ⟨"t1", "buy milk", false, ⟨2025, 1, 15, 0, 0⟩, none, none, none, none,
   false, 0, some 0⟩

/-- A retryable failure result (e.g. a 429 from the service). -/
def retryableFailure : GoogleSyncResult := ⟨false, true, none, some "rate limited"⟩

/-- An adapter whose every call fails retryably. -/
def failAdapter : GcalAdapter :=
  ⟨fun _ => retryableFailure, fun _ _ => retryableFailure, fun _ => retryableFailure⟩

/-- An adapter whose every call succeeds (create returns "evt-new"). -/
def okAdapter : GcalAdapter :=
  ⟨fun _ => ⟨true, false, some "evt-new", none⟩,
   fun _ _ => ⟨true, false, none, none⟩,
   fun _ => ⟨true, false, none, none⟩⟩

/-- A queued update operation for task "t1" / event "evt1", never retried. -/
def updItem : SyncQueueItem :=
  ⟨"q1", .update, "t1", some rtTask, some "evt1", 100, none, none⟩

/-- An oracle whose queue read and final refresh both throw. -/
def throwingOracle : StorageOracle :=
  ⟨some "storage read failed", fun _ => true, fun _ => true,
   some "refresh failed"⟩

/-- The queue after `syncCreate` ran while offline for `offlineTask`. -/
def pendingCreateQueue : List SyncQueueItem :=
  (syncCreate offlineTask true false vacuousSuccess "q1" 100 []).1

/-- Placeholder element for positional list lookups. -/
def defaultTask : Task :=
  ⟨"", "", false, ⟨0, 0, 0, 0, 0⟩, none, none, none, none, false, 0, none⟩

/-! Helper lemmas about the queue primitives and the pull loop. -/

/-- Membership in the queue after `removeSyncQueueItem` excludes the removed
identifier. -/
theorem mem_removeSyncQueueItem {q : List SyncQueueItem} {id : String}
    {j : SyncQueueItem} (h : j ∈ removeSyncQueueItem q id) : j.id ≠ id := by
  have := List.of_mem_filter h
  simpa [bne_iff_ne] using this

/-- Lemma: `updateSyncQueueItem` rewrites a member with the given identifier to the
bumped record. -/
theorem mem_updateSyncQueueItem {q : List SyncQueueItem} {id : String}
    {rc : Nat} {le : Option String} {ts : Nat} {j : SyncQueueItem}
    (hj : j ∈ q) (hid : j.id = id) :
    { j with retryCount := some rc, lastError := le, timestamp := ts } ∈
      updateSyncQueueItem q id rc le ts := by
  unfold updateSyncQueueItem
  have hmem := List.mem_map_of_mem
    (fun i : SyncQueueItem =>
      if i.id == id then
        { i with retryCount := some rc, lastError := le, timestamp := ts }
      else i) hj
  simpa [hid] using hmem

/-- Lemma: `addOrReplaceSyncQueueItem` preserves the one-item-per-task invariant. -/
theorem pairwise_addOrReplace {q : List SyncQueueItem} (item : SyncQueueItem)
    (h : q.Pairwise (fun a b => a.taskId ≠ b.taskId)) :
    (addOrReplaceSyncQueueItem q item).Pairwise
      (fun a b => a.taskId ≠ b.taskId) := by
  unfold addOrReplaceSyncQueueItem
  split
  · refine List.Pairwise.map _ ?_ h
    intro a b hab
    have hf : ∀ x : SyncQueueItem,
        (if x.taskId == item.taskId then item else x).taskId = x.taskId := by
      intro x
      split
      · next hx => exact (eq_of_beq hx).symm
      · rfl
    rw [hf a, hf b]
    exact hab
  · next hany =>
    rw [List.pairwise_append]
    refine ⟨h, List.pairwise_singleton _ _, ?_⟩
    intro a ha b hb heq
    apply hany
    apply List.any_eq_true.mpr
    refine ⟨a, ha, ?_⟩
    simp only [List.mem_singleton] at hb
    subst hb
    simp [heq]

/-- When nothing in `q` carries the task identifier, the replacement map is
the identity and the matching filter is empty. -/
theorem filter_map_replace_nil {q : List SyncQueueItem} {item : SyncQueueItem}
    (h : ∀ j ∈ q, j.taskId ≠ item.taskId) :
    (q.map (fun i => if i.taskId == item.taskId then item else i)).filter
      (fun i => i.taskId == item.taskId) = [] := by
  induction q with
  | nil => rfl
  | cons a q ih =>
    have ha : ¬(a.taskId == item.taskId) = true := by
      simp [beq_iff_eq]
      exact h a (List.mem_cons_self a q)
    simp only [List.map_cons, if_neg ha]
    rw [List.filter_cons, if_neg ha]
    exact ih (fun j hj => h j (List.mem_cons_of_mem a hj))

/-- In a duplicate-free queue containing the task identifier, replacing
leaves exactly the new item as the matching entry. -/
theorem filter_map_replace_eq {q : List SyncQueueItem} {item : SyncQueueItem}
    (h : q.Pairwise (fun a b => a.taskId ≠ b.taskId))
    (hany : q.any (fun i => i.taskId == item.taskId) = true) :
    (q.map (fun i => if i.taskId == item.taskId then item else i)).filter
      (fun i => i.taskId == item.taskId) = [item] := by
  induction q with
  | nil => simp at hany
  | cons a q ih =>
    rcases List.pairwise_cons.mp h with ⟨hhead, htail⟩
    by_cases ha : (a.taskId == item.taskId) = true
    · have haeq : a.taskId = item.taskId := eq_of_beq ha
      simp only [List.map_cons, if_pos ha]
      rw [List.filter_cons, if_pos (by simp)]
      rw [filter_map_replace_nil (fun j hj => by
        have := hhead j hj
        rw [← haeq]
        exact fun hc => this hc.symm)]
    · simp only [List.map_cons, if_neg ha]
      rw [List.filter_cons, if_neg ha]
      refine ih htail ?_
      rcases List.any_eq_true.mp hany with ⟨x, hx, hxx⟩
      rcases List.mem_cons.mp hx with rfl | hx'
      · exact absurd hxx ha
      · exact List.any_eq_true.mpr ⟨x, hx', hxx⟩

/-- After append-or-replace on a duplicate-free queue, the entry pending for
the enqueued task identifier is exactly the new item. -/
theorem addOrReplace_filter_eq {q : List SyncQueueItem} (item : SyncQueueItem)
    (h : q.Pairwise (fun a b => a.taskId ≠ b.taskId)) :
    (addOrReplaceSyncQueueItem q item).filter
      (fun i => i.taskId == item.taskId) = [item] := by
  unfold addOrReplaceSyncQueueItem
  split
  · next hany => exact filter_map_replace_eq h hany
  · next hany =>
    rw [List.filter_append]
    rw [List.filter_eq_nil.mpr (fun a ha hpa => by
      apply hany
      exact List.any_eq_true.mpr ⟨a, ha, hpa⟩)]
    simp

/-! Claim theorems. -/

/-- C5: for each of `createEvent`, `updateEvent` and `deleteEvent`, a failed
HTTP response (every status, 404 and 410 included) yields a result that is
retryable exactly when the status is in {408, 425, 429, 500, 502, 503, 504}
and the classified error message does not match a permanent pattern
(immutable-field conflict or "not found"); a network-level exception (no
response received) yields a retryable result.  For `deleteEvent` at 404 or
410 the source short-circuits to success, whose `retryable = false` still
satisfies the equivalence because those statuses are outside the retryable
set. -/
theorem error_classification (tok : String) (task : Task) (eid : String)
    (status : Nat) (errMsg : Option String) (netMsg : Option String)
    (htok : tok ≠ "") (heid : eid ≠ "") :
    ((createEvent true true (some tok)
        (.response ⟨false, status, errMsg, none⟩) task).retryable
      = (isRetryableStatusCode status &&
         !(isPermanentGoogleError (orFallback errMsg "Failed to create event"))))
    ∧ ((updateEvent true true eid (some tok)
        (.response ⟨false, status, errMsg, none⟩) task).retryable
      = (isRetryableStatusCode status &&
         !(isPermanentGoogleError (orFallback errMsg "Failed to update event"))))
    ∧ ((deleteEvent true true eid (some tok)
        (.response ⟨false, status, errMsg, none⟩)).retryable
      = (isRetryableStatusCode status &&
         !(isPermanentGoogleError (orFallback errMsg "Failed to delete event"))))
    ∧ (createEvent true true (some tok) (.thrown netMsg) task).retryable = true
    ∧ (updateEvent true true eid (some tok) (.thrown netMsg) task).retryable = true
    ∧ (deleteEvent true true eid (some tok) (.thrown netMsg)).retryable = true := by
  refine ⟨?_, ?_, ?_, ?_, ?_, ?_⟩
  · simp [createEvent, truthyStr, htok]
  · simp [updateEvent, truthyStr, htok, heid]
  · by_cases h4 : status = 404
    · subst h4
      have hr : isRetryableStatusCode 404 = false := by decide
      simp [deleteEvent, truthyStr, htok, heid, hr]
    · by_cases h10 : status = 410
      · subst h10
        have hr : isRetryableStatusCode 410 = false := by decide
        simp [deleteEvent, truthyStr, htok, heid, hr]
      · simp [deleteEvent, truthyStr, htok, heid, h4, h10]
  · simp [createEvent, truthyStr, htok]
  · simp [updateEvent, truthyStr, htok, heid]
  · simp [deleteEvent, truthyStr, htok, heid]

/-- Witness for `error_classification` at a concrete 500 response. -/
theorem error_classification_witness :
    (createEvent true true (some "tok")
        (.response ⟨false, 500, none, none⟩) rtTask).retryable
      = (isRetryableStatusCode 500 &&
         !(isPermanentGoogleError (orFallback none "Failed to create event"))) :=
  (error_classification "tok" rtTask "e1" 500 none none (by decide)
    (by decide)).1

/-- C6: a `deleteEvent` call whose HTTP response has status 404 or 410
returns exactly the successful result of an `ok` response. -/
theorem idempotent_delete (tok eid : String) (errMsg : Option String)
    (htok : tok ≠ "") (heid : eid ≠ "") :
    deleteEvent true true eid (some tok) (.response ⟨false, 404, errMsg, none⟩)
        = deleteEvent true true eid (some tok) (.response ⟨true, 200, none, none⟩)
    ∧ (deleteEvent true true eid (some tok)
        (.response ⟨false, 404, errMsg, none⟩)).success = true
    ∧ deleteEvent true true eid (some tok) (.response ⟨false, 410, errMsg, none⟩)
        = deleteEvent true true eid (some tok) (.response ⟨true, 200, none, none⟩)
    ∧ (deleteEvent true true eid (some tok)
        (.response ⟨false, 410, errMsg, none⟩)).success = true := by
  refine ⟨?_, ?_, ?_, ?_⟩ <;> simp [deleteEvent, truthyStr, htok, heid]

/-- Witness for `idempotent_delete` at a concrete event identifier. -/
theorem idempotent_delete_witness :
    (deleteEvent true true "evt1" (some "tok")
      (.response ⟨false, 404, some "Not Found", none⟩)).success = true :=
  (idempotent_delete "tok" "evt1" (some "Not Found") (by decide) (by decide)).2.1

/-- C7: a `flushQueue` invocation that finds a flush already in progress, or
sync not permitted (not signed in, no verified linked account, or sync
disabled), returns `{processed: 0, retrying: 0, dropped: 0}`, performs no
remote calls and leaves the whole state (flag, queue, task store)
unchanged. -/
theorem gated_flush_noop (gcal : GcalAdapter) (oracle : StorageOracle)
    (signedIn connected enabled : Bool) (now : Nat) (st : SyncState)
    (h : st.isFlushing = true ∨ canSync signedIn connected enabled = false) :
    flushQueue gcal oracle (canSync signedIn connected enabled) now st =
      (st, .ok ⟨0, 0, 0⟩, []) := by
  unfold flushQueue
  rcases h with h | h <;> simp [h]

/-- Witness for `gated_flush_noop`: sync disabled in settings. -/
theorem gated_flush_noop_witness :
    flushQueue okAdapter allOk (canSync true true false) 0
        ⟨false, [updItem], [rtTask]⟩ =
      (⟨false, [updItem], [rtTask]⟩, .ok ⟨0, 0, 0⟩, []) :=
  gated_flush_noop okAdapter allOk true true false 0 ⟨false, [updItem], [rtTask]⟩
    (Or.inr (by decide))

/-- C10: whenever `flushQueue` starts with the in-progress flag clear, the
flag is clear again on return, on every path — gated by `canSync`, the
empty-queue early return, a throwing queue read, a throwing final refresh,
and the normal path — so an abnormal termination never blocks later
flushes. -/
theorem flush_flag_released (gcal : GcalAdapter) (oracle : StorageOracle)
    (canSyncNow : Bool) (now : Nat) (st : SyncState)
    (h : st.isFlushing = false) :
    (flushQueue gcal oracle canSyncNow now st).1.isFlushing = false := by
  unfold flushQueue
  split
  · exact h
  · split
    · rfl
    · split
      · rfl
      · split <;> rfl

/-- Witness for `flush_flag_released`: the queue read and the final refresh
both throw, yet the flag is clear afterwards. -/
theorem flush_flag_released_witness :
    (flushQueue failAdapter throwingOracle true 0
      ⟨false, [updItem], [rtTask]⟩).1.isFlushing = false :=
  flush_flag_released failAdapter throwingOracle true 0
    ⟨false, [updItem], [rtTask]⟩ rfl

/-- C8: converting a task with priority "high", description "buy milk",
completed = false and time-of-day "14:30" to a calendar event and mapping
the stored event back yields the same priority, description and
time-of-day. -/
theorem roundtrip_mapping :
    (eventToTask 999 ⟨2025, 1, 15, 9, 0⟩
        (eventAsListed (taskToEvent "UTC" rtTask) "evt1" (some 500) none)).priority
        = some Priority.high
    ∧ (eventToTask 999 ⟨2025, 1, 15, 9, 0⟩
        (eventAsListed (taskToEvent "UTC" rtTask) "evt1" (some 500) none)).description
        = some "buy milk"
    ∧ (eventToTask 999 ⟨2025, 1, 15, 9, 0⟩
        (eventAsListed (taskToEvent "UTC" rtTask) "evt1" (some 500) none)).scheduled_time
        = some "14:30"
    ∧ rtTask.priority = some Priority.high
    ∧ rtTask.description = some "buy milk"
    ∧ rtTask.completed = false
    ∧ rtTask.scheduled_time = some "14:30" := by
  decide

/-- C4 evaluated at its failing input: after `syncCreate` queued a create
for a task that has no remote identifier, a local delete goes through
`syncDelete`, which returns `false` and leaves the pending create in the
queue (nothing is replaced), and the next flush issues a remote create
call for the deleted task. -/
theorem delete_does_not_supersede_pending_create :
    pendingCreateQueue =
      [⟨"q1", .create, "t1", some offlineTask, none, 100, none, none⟩]
    ∧ syncDelete offlineTask.gcalEventId "t1" true true
        ⟨true, false, none, none⟩ "q2" 200 pendingCreateQueue
        = (pendingCreateQueue, false)
    ∧ (flushQueue okAdapter allOk true 300
        ⟨false, pendingCreateQueue, []⟩).2.2 = [RemoteCall.create offlineTask] := by
  decide

/-- C1: for a fetched remote event matching a local task by remote event
identifier, the pull loop overwrites the task's text, completion, date,
time, priority, description and last-modified stamp from the remote version
exactly when the remote last-modified timestamp is strictly greater than
the local one, keeping the local identity fields; when the remote stamp is
less than or equal, the task list is returned entirely unchanged. -/
theorem lww_merge (tasks : List Task) (remote : PulledTask) (freshId : String)
    (localTask : Task)
    (hfind : tasks.find? (matchesRemote remote) = some localTask) :
    (remote.gcalUpdated ≤ localTask.updated_at.getD 0 →
      applyRemote tasks remote freshId = (tasks, false))
    ∧ (localTask.updated_at.getD 0 < remote.gcalUpdated →
      (applyRemote tasks remote freshId).1 =
        updateFirstMatch (matchesRemote remote)
          (fun l => mergeRemoteIntoTask l remote) tasks
      ∧ (applyRemote tasks remote freshId).2 = true
      ∧ (mergeRemoteIntoTask localTask remote).text = remote.text
      ∧ (mergeRemoteIntoTask localTask remote).completed = remote.completed
      ∧ (mergeRemoteIntoTask localTask remote).date = remote.date
      ∧ (mergeRemoteIntoTask localTask remote).scheduled_time = remote.scheduled_time
      ∧ (mergeRemoteIntoTask localTask remote).priority = remote.priority
      ∧ (mergeRemoteIntoTask localTask remote).description = remote.description
      ∧ (mergeRemoteIntoTask localTask remote).updated_at = some remote.gcalUpdated
      ∧ (mergeRemoteIntoTask localTask remote).id = localTask.id
      ∧ (mergeRemoteIntoTask localTask remote).gcalEventId = localTask.gcalEventId
      ∧ (mergeRemoteIntoTask localTask remote).created_at = localTask.created_at) := by
  unfold applyRemote
  rw [hfind]
  dsimp only
  constructor
  · intro hle
    rw [if_neg (Nat.not_lt.mpr hle)]
  · intro hlt
    rw [if_pos hlt]
    exact ⟨rfl, rfl, rfl, rfl, rfl, rfl, rfl, rfl, rfl, rfl, rfl, rfl⟩

/-- Witness for `lww_merge`: a strictly newer remote event (stamp 900 vs
local 500) marks the list changed. -/
theorem lww_merge_witness :
    (applyRemote [localLinked] remoteNewer "f1").2 = true := by
  have h := lww_merge [localLinked] remoteNewer "f1" localLinked (by decide)
  exact (h.2 (by decide)).2.1

/-- C2: a flush-loop item whose remote call fails is removed and counted as
dropped exactly when the failure is non-retryable or the bumped retry count
reaches `MAX_SYNC_RETRIES` = 3; any other failing item stays queued with
its retry counter incremented, the error message recorded, a refreshed
timestamp, and counts as retrying.  In particular (concrete trace) an item
failing retryably is retried twice, dropped at the third failure, absent
from the queue afterwards, and never attempted a fourth time. -/
theorem flush_failure_policy (gcal : GcalAdapter) (now : Nat)
    (ls : FlushLoopState) (item : SyncQueueItem)
    (hfail : (itemAttempt gcal ls.updatedTasks item).1.success = false) :
    (((itemAttempt gcal ls.updatedTasks item).1.retryable = false ∨
        MAX_SYNC_RETRIES ≤ item.retryCount.getD 0 + 1) →
      (runItem gcal allOk now ls item).queue = removeSyncQueueItem ls.queue item.id
      ∧ (∀ j ∈ (runItem gcal allOk now ls item).queue, j.id ≠ item.id)
      ∧ (runItem gcal allOk now ls item).dropped = ls.dropped + 1
      ∧ (runItem gcal allOk now ls item).retrying = ls.retrying
      ∧ (runItem gcal allOk now ls item).processed = ls.processed)
    ∧ ((itemAttempt gcal ls.updatedTasks item).1.retryable = true ∧
        item.retryCount.getD 0 + 1 < MAX_SYNC_RETRIES →
      (runItem gcal allOk now ls item).queue =
        updateSyncQueueItem ls.queue item.id (item.retryCount.getD 0 + 1)
          (itemAttempt gcal ls.updatedTasks item).1.message now
      ∧ (∀ j ∈ ls.queue, j.id = item.id →
          { j with retryCount := some (item.retryCount.getD 0 + 1),
                   lastError := (itemAttempt gcal ls.updatedTasks item).1.message,
                   timestamp := now } ∈ (runItem gcal allOk now ls item).queue)
      ∧ (runItem gcal allOk now ls item).retrying = ls.retrying + 1
      ∧ (runItem gcal allOk now ls item).dropped = ls.dropped
      ∧ (runItem gcal allOk now ls item).processed = ls.processed)
    ∧ ((flushQueue failAdapter allOk true 1000 ⟨false, [updItem], [rtTask]⟩).2.1
          = .ok ⟨0, 1, 0⟩
      ∧ (flushQueue failAdapter allOk true 2000
          (flushQueue failAdapter allOk true 1000
            ⟨false, [updItem], [rtTask]⟩).1).2.1 = .ok ⟨0, 1, 0⟩
      ∧ (flushQueue failAdapter allOk true 3000
          (flushQueue failAdapter allOk true 2000
            (flushQueue failAdapter allOk true 1000
              ⟨false, [updItem], [rtTask]⟩).1).1).2.1 = .ok ⟨0, 0, 1⟩
      ∧ (flushQueue failAdapter allOk true 3000
          (flushQueue failAdapter allOk true 2000
            (flushQueue failAdapter allOk true 1000
              ⟨false, [updItem], [rtTask]⟩).1).1).1.queue = []
      ∧ (flushQueue failAdapter allOk true 4000
          (flushQueue failAdapter allOk true 3000
            (flushQueue failAdapter allOk true 2000
              (flushQueue failAdapter allOk true 1000
                ⟨false, [updItem], [rtTask]⟩).1).1).1).2.1 = .ok ⟨0, 0, 0⟩
      ∧ (flushQueue failAdapter allOk true 4000
          (flushQueue failAdapter allOk true 3000
            (flushQueue failAdapter allOk true 2000
              (flushQueue failAdapter allOk true 1000
                ⟨false, [updItem], [rtTask]⟩).1).1).1).2.2 = []) := by
  refine ⟨?_, ?_, by decide⟩
  · intro hdrop
    unfold runItem
    simp only [allOk, hfail, Bool.false_eq_true, if_false, if_true]
    rw [if_pos hdrop]
    refine ⟨rfl, ?_, rfl, rfl, rfl⟩
    intro j hj
    exact mem_removeSyncQueueItem hj
  · intro hretry
    unfold runItem
    simp only [allOk, hfail, Bool.false_eq_true, if_false, if_true]
    rw [if_neg (by
      rintro (hc | hc)
      · rw [hretry.1] at hc
        exact Bool.true_eq_false.mp hc
      · exact Nat.not_lt.mpr hc hretry.2)]
    refine ⟨rfl, ?_, rfl, rfl, rfl⟩
    intro j hj hid
    exact mem_updateSyncQueueItem hj hid

/-- Witness for `flush_failure_policy`: a retryable failure on a
never-retried item leaves it queued with its counter at 1. -/
theorem flush_failure_policy_witness :
    (itemAttempt failAdapter [rtTask] updItem).1.success = false
    ∧ (runItem failAdapter allOk 1000
        ⟨[updItem], [rtTask], 0, 0, 0, []⟩ updItem).retrying = 1 := by
  refine ⟨by decide, ?_⟩
  have h := flush_failure_policy failAdapter 1000
    ⟨[updItem], [rtTask], 0, 0, 0, []⟩ updItem (by decide)
  exact (h.2.1 ⟨by decide, by decide⟩).2.2.1

/-- C3: starting from any queue with at most one item per task identifier
(in particular the empty queue), any sequence of append-or-replace enqueues
— the operation used by `syncCreate`, `syncUpdate` and `syncDelete` —
preserves that invariant, and enqueuing an operation for a task leaves the
newly enqueued item as the only entry pending for that task identifier
(later intent wins). -/
theorem queue_dedup_invariant (q0 : List SyncQueueItem)
    (ops : List SyncQueueItem)
    (h : q0.Pairwise (fun a b => a.taskId ≠ b.taskId)) :
    ((ops.foldl addOrReplaceSyncQueueItem q0).Pairwise
        fun a b => a.taskId ≠ b.taskId)
    ∧ ∀ item,
        (addOrReplaceSyncQueueItem (ops.foldl addOrReplaceSyncQueueItem q0)
            item).filter (fun i => i.taskId == item.taskId) = [item] := by
  have hfold : ∀ (os : List SyncQueueItem) (q : List SyncQueueItem),
      q.Pairwise (fun a b => a.taskId ≠ b.taskId) →
      (os.foldl addOrReplaceSyncQueueItem q).Pairwise
        (fun a b => a.taskId ≠ b.taskId) := by
    intro os
    induction os with
    | nil => intro q hq; exact hq
    | cons o os ih =>
      intro q hq
      exact ih _ (pairwise_addOrReplace o hq)
  exact ⟨hfold ops q0 h,
    fun item => addOrReplace_filter_eq item (hfold ops q0 h)⟩

/-- Witness for `queue_dedup_invariant`: enqueuing a create then a delete
for task "t1" from the empty queue keeps the invariant, and a subsequent
delete enqueue is the unique pending entry for "t1". -/
theorem queue_dedup_invariant_witness :
    (([⟨"q1", .create, "t1", some offlineTask, none, 100, none, none⟩,
        ⟨"q2", .del, "t1", none, some "evt1", 200, none, none⟩].foldl
          addOrReplaceSyncQueueItem []).Pairwise
        fun a b => a.taskId ≠ b.taskId)
    ∧ (addOrReplaceSyncQueueItem
        ([⟨"q1", .create, "t1", some offlineTask, none, 100, none, none⟩,
          ⟨"q2", .del, "t1", none, some "evt1", 200, none, none⟩].foldl
            addOrReplaceSyncQueueItem [])
        ⟨"q3", .del, "t1", none, some "evt1", 300, none, none⟩).filter
        (fun i => i.taskId ==
          (⟨"q3", .del, "t1", none, some "evt1", 300, none, none⟩ :
            SyncQueueItem).taskId) =
      [⟨"q3", .del, "t1", none, some "evt1", 300, none, none⟩] := by
  have h := queue_dedup_invariant []
    [⟨"q1", .create, "t1", some offlineTask, none, 100, none, none⟩,
     ⟨"q2", .del, "t1", none, some "evt1", 200, none, none⟩]
    List.Pairwise.nil
  exact ⟨h.1, h.2 ⟨"q3", .del, "t1", none, some "evt1", 300, none, none⟩⟩

/-- Lemma: `updateFirstMatch` keeps the list length. -/
theorem updateFirstMatch_length (p : Task → Bool) (f : Task → Task)
    (l : List Task) : (updateFirstMatch p f l).length = l.length := by
  induction l with
  | nil => rfl
  | cons a l ih =>
    unfold updateFirstMatch
    split
    · rfl
    · simpa using ih

/-- When `f` keeps the task identifier, `updateFirstMatch` keeps every
positional identifier. -/
theorem updateFirstMatch_getD_id (p : Task → Bool) (f : Task → Task)
    (hf : ∀ t, (f t).id = t.id) (l : List Task) (i : Nat) :
    ((updateFirstMatch p f l).getD i defaultTask).id =
      (l.getD i defaultTask).id := by
  induction l generalizing i with
  | nil => rfl
  | cons a l ih =>
    unfold updateFirstMatch
    split
    · cases i with
      | zero => simpa using hf a
      | succ n => rfl
    · cases i with
      | zero => rfl
      | succ n => simpa using ih n

/-- One pull-loop step neither shortens the list nor changes the identifier
at any original position. -/
theorem applyRemote_preserves (tasks : List Task) (remote : PulledTask)
    (freshId : String) :
    tasks.length ≤ (applyRemote tasks remote freshId).1.length
    ∧ ∀ i, i < tasks.length →
        (((applyRemote tasks remote freshId).1).getD i defaultTask).id =
          (tasks.getD i defaultTask).id := by
  unfold applyRemote
  cases hf : tasks.find? (matchesRemote remote) with
  | some localTask =>
    dsimp only
    split
    · constructor
      · rw [updateFirstMatch_length]
      · intro i hi
        exact updateFirstMatch_getD_id (matchesRemote remote)
          (fun l => mergeRemoteIntoTask l remote) (fun t => rfl) tasks i
    · exact ⟨Nat.le_refl _, fun i hi => rfl⟩
  | none =>
    dsimp only
    constructor
    · simp
    · intro i hi
      rw [List.getD_append _ _ _ _ hi]

/-- The whole pull loop preserves length and positional identifiers. -/
theorem pullGo_preserves (freshIds : Nat → String) (evs : List PulledTask) :
    ∀ (tasks : List Task) (k c : Nat),
      tasks.length ≤ (pullGo freshIds evs tasks k c).1.length
      ∧ ∀ i, i < tasks.length →
          ((pullGo freshIds evs tasks k c).1.getD i defaultTask).id =
            (tasks.getD i defaultTask).id := by
  induction evs with
  | nil => exact fun tasks k c => ⟨Nat.le_refl _, fun i hi => rfl⟩
  | cons e rest ih =>
    intro tasks k c
    have h1 := applyRemote_preserves tasks e (freshIds k)
    have h2 := ih (applyRemote tasks e (freshIds k)).1 (k + 1)
      (c + if (applyRemote tasks e (freshIds k)).2 then 1 else 0)
    unfold pullGo
    constructor
    · exact Nat.le_trans h1.1 h2.1
    · intro i hi
      rw [h2.2 i (Nat.lt_of_lt_of_le hi h1.1), h1.2 i hi]

/-- C9: every task present before `pullFromCalendar` is still present at its
position afterwards with its local identifier unchanged; the pull only
rewrites fields of matched tasks or appends new tasks, and never removes a
local task — also when the fetched listing omits events that local tasks
are linked to. -/
theorem pull_never_deletes (canSyncNow : Bool) (freshIds : Nat → String)
    (remoteEvents : List PulledTask) (tasks : List Task) :
    tasks.length ≤ (pullFromCalendar canSyncNow freshIds remoteEvents tasks).1.length
    ∧ ∀ i, i < tasks.length →
        (((pullFromCalendar canSyncNow freshIds remoteEvents tasks).1).getD i
            defaultTask).id = (tasks.getD i defaultTask).id := by
  unfold pullFromCalendar
  split
  · exact ⟨Nat.le_refl _, fun i hi => rfl⟩
  · split
    · exact ⟨Nat.le_refl _, fun i hi => rfl⟩
    · have h := pullGo_preserves freshIds remoteEvents tasks 0 0
      dsimp only
      split
      · exact h
      · exact ⟨Nat.le_refl _, fun i hi => rfl⟩

/-- Witness for `pull_never_deletes`: after pulling a newer remote version
of "evt1", the task at position 0 still carries identifier "t1", and the
list is no shorter. -/
theorem pull_never_deletes_witness :
    ((pullFromCalendar true (fun _ => "fresh") [remoteNewer]
        [localLinked]).1.getD 0 defaultTask).id = "t1" := by
  have h := pull_never_deletes true (fun _ => "fresh") [remoteNewer] [localLinked]
  rw [h.2 0 (by decide)]
  decide

end Cue
